import Mathlib

/-!
Shallow embedding of the lead-generation quiz wizard of this repository.

The embedded code is the Quiz component of src/app/quiz/page.tsx: its
four screens (intro, business-type selection, growth-stage selection,
questions), the event handlers startQuiz, selectBusinessType,
selectGrowthStage, handleAnswer and goBack, the derived progress value,
and the browser storage and navigation effects those handlers perform.
The growth-stage catalog of src/lib/quiz/growth-stages.ts is embedded as
plain data.  The question bank (getQuestionsForPath) is not part of the
sources, so the wizard is kept parametric in a lookup function from the
two selected ids to an ordered question list.

Every browser effect (localStorage.setItem, localStorage.removeItem,
router.push) is recorded both in the state (the storage contents) and as
an emitted event, so that temporal claims about a whole run can be
stated over the concatenated event trace.
-/

/-- An answer option of a quiz question: display text and a point value. -/
structure AnswerOpt where
  text : String
  points : Int
  deriving DecidableEq

/-- A quiz question: prompt text and its ordered list of options. -/
structure Question where
  question : String
  options : List AnswerOpt
  deriving DecidableEq

/-- A growth-stage catalog entry, from src/lib/quiz/growth-stages.ts. -/
structure GrowthStageConfig where
  id : String
  name : String
  emoji : String
  description : String
  revenue : String
  deriving DecidableEq

/-- The growthStages catalog of src/lib/quiz/growth-stages.ts. -/
def growthStages : List GrowthStageConfig :=
  [ { id := "startup", name := "Starting Up", emoji := "🌱",
      description := "You\x27re in the early stages, building your foundation and finding your first customers.",
      revenue := "$0 - $1K/month" },
    { id := "growing", name := "Growing", emoji := "📈",
      description := "You have some traction but need systems and consistency to scale further.",
      revenue := "$1K - $5K/month" },
    { id := "scaling", name := "Scaling", emoji := "⭐",
      description := "You\x27re established and ready to optimize, delegate, and scale to the next level.",
      revenue := "$5K+/month" } ]

/-- Storage key written by handleAnswer at completion (page.tsx line 277). -/
def scoreKey : String := "focusFoundersQuizScore"

/-- Storage key written by handleAnswer after every answer (page.tsx line 269). -/
def answersKey : String := "focusFoundersQuizAnswers"

/-- Storage key written by selectGrowthStage (page.tsx line 115). -/
def pathKey : String := "focusFoundersQuizPath"

/-- Which browser key-value store a storage operation targets. -/
inductive StoreTag
  | localStore
  | sessionStore
  deriving DecidableEq

/-- Contents of one browser key-value store, restricted to the three quiz
keys the controller ever touches; a field is none when the key is absent. -/
structure Storage where
  path : Option String
  answers : Option String
  score : Option String
  deriving DecidableEq

/-- A store with none of the three quiz keys present. -/
def emptyStorage : Storage := { path := none, answers := none, score := none }

/-- The four screens of the wizard (the step useState of page.tsx line 94),
plus done for the moment after router.push has handed control to the
results view and the component is gone. -/
inductive Step
  | intro
  | businessType
  | growthStage
  | questions
  | done
  deriving DecidableEq

/-- A browser effect performed by an event handler. -/
inductive Event
  | setItem (store : StoreTag) (key value : String)
  | removeItem (store : StoreTag) (key : String)
  | navigate (route : String)
  deriving DecidableEq

/-- The wizard state: the five useState hooks of the Quiz component
(page.tsx lines 94-98) together with the contents of the two browser
stores.  Answer cells are Option Int so that a JavaScript array hole
(an index assignment past the end) is representable as none. -/
structure QuizState where
  step : Step
  selectedBusinessType : Option String
  selectedGrowthStage : Option String
  currentQuestionIndex : Nat
  answers : List (Option Int)
  localStorage : Storage
  sessionStorage : Storage
  deriving DecidableEq

/-- JSON string literal for a catalog id (the ids contain no characters
that JSON.stringify would escape). -/
def jsonStr (s : String) : String := "\x22" ++ s ++ "\x22"

/-- JSON.stringify of a possibly null string value. -/
def jsonOptStr : Option String → String
  | some s => jsonStr s
  | none => "null"

/-- JSON.stringify of the path object written by selectGrowthStage
(page.tsx lines 115-118): the businessType field is the current
selection (possibly null), the growthStage field is the handler argument. -/
def encodePath (bt : Option String) (gs : String) : String :=
  "\x7b\x22businessType\x22:" ++ jsonOptStr bt ++
    ",\x22growthStage\x22:" ++ jsonStr gs ++ "\x7d"

/-- One cell of JSON.stringify of the answers array: a hole prints as null. -/
def jsonCell : Option Int → String
  | some n => toString n
  | none => "null"

/-- JSON.stringify(newAnswers) as written at page.tsx line 269. -/
def encodeAnswers (l : List (Option Int)) : String :=
  "[" ++ String.intercalate "," (l.map jsonCell) ++ "]"

/-- JavaScript addition where none stands for undefined: adding an
undefined cell poisons the whole sum (NaN), which none also represents. -/
def jsAdd : Option Int → Option Int → Option Int
  | some a, some b => some (a + b)
  | _, _ => none

/-- newAnswers.reduce of page.tsx line 276: left fold of jsAdd over the
answer cells starting from 0. -/
def jsSum (l : List (Option Int)) : Option Int := l.foldl jsAdd (some 0)

/-- totalScore.toString() of page.tsx line 277; NaN prints as NaN. -/
def scoreStr : Option Int → String
  | some n => toString n
  | none => "NaN"

/-- JavaScript array index assignment a[i] = v, as performed on the copy
of the answers array at page.tsx line 265: an in-range index overwrites
that slot, an index past the end extends the array with holes. -/
def setIdx (A : List (Option Int)) (i : Nat) (p : Int) : List (Option Int) :=
  if i < A.length then A.set i (some p)
  else A ++ (List.replicate (i - A.length) none ++ [some p])

/-- getQuestionsForPath(selectedBusinessType!, selectedGrowthStage!) of
page.tsx line 259.  The TypeScript non-null assertions are modelled by
getD defaults that stand for the undefined runtime value; the transition
graph never reaches the questions screen without both selections set. -/
def questionsOf (lookup : String → String → List Question) (s : QuizState) :
    List Question :=
  lookup (s.selectedBusinessType.getD "undefined")
    (s.selectedGrowthStage.getD "undefined")

/-- progress = ((currentQuestionIndex + 1) / questions.length) * 100 of
page.tsx line 261, recomputed on every render from the current index and
the question count (it is a derived const, not a stored state field). -/
def progressPct (i N : Nat) : ℚ :=
  (((i : ℚ) + 1) / (N : ℚ)) * 100

/-- The user interactions the four screens offer: the start button, a
business-type card, a growth-stage card, an answer option (carrying the
option points passed to handleAnswer), and the back buttons. -/
inductive UiAction
  | start
  | chooseBusinessType (bt : String)
  | chooseGrowthStage (gs : String)
  | answer (points : Int)
  | back
  deriving DecidableEq

/-- One user interaction applied to the wizard state, returning the new
state and the list of browser effects the handler performed, in order.
Each handler is only reachable from the screen that renders its button,
hence the step guards; any other combination leaves the state unchanged
and performs no effect.  The branches mirror startQuiz (line 100),
selectBusinessType (line 104), selectGrowthStage (line 109), handleAnswer
(line 263) and goBack (line 282) of page.tsx, plus the growth-stage
screen back button (line 243). -/
def stepQuiz (lookup : String → String → List Question) (s : QuizState) :
    UiAction → QuizState × List Event
  | .start =>
    if s.step = Step.intro then ({ s with step := Step.businessType }, [])
    else (s, [])
  | .chooseBusinessType bt =>
    if s.step = Step.businessType then
      ({ s with selectedBusinessType := some bt, step := Step.growthStage }, [])
    else (s, [])
  | .chooseGrowthStage gs =>
    if s.step = Step.growthStage then
      ({ s with
          selectedGrowthStage := some gs,
          localStorage :=
            { path := some (encodePath s.selectedBusinessType gs),
              answers := none,
              score := none },
          currentQuestionIndex := 0,
          answers := [],
          step := Step.questions },
       [Event.removeItem StoreTag.localStore scoreKey,
        Event.removeItem StoreTag.localStore answersKey,
        Event.setItem StoreTag.localStore pathKey
          (encodePath s.selectedBusinessType gs)])
    else (s, [])
  | .answer points =>
    if s.step = Step.questions then
      let questions := questionsOf lookup s
      let newAnswers := setIdx s.answers s.currentQuestionIndex points
      if s.currentQuestionIndex < questions.length - 1 then
        ({ s with
            answers := newAnswers,
            localStorage :=
              { s.localStorage with answers := some (encodeAnswers newAnswers) },
            currentQuestionIndex := s.currentQuestionIndex + 1 },
         [Event.setItem StoreTag.localStore answersKey (encodeAnswers newAnswers)])
      else
        let totalScore := jsSum newAnswers
        ({ s with
            answers := newAnswers,
            localStorage :=
              { s.localStorage with
                  answers := some (encodeAnswers newAnswers),
                  score := some (scoreStr totalScore) },
            step := Step.done },
         [Event.setItem StoreTag.localStore answersKey (encodeAnswers newAnswers),
          Event.setItem StoreTag.localStore scoreKey (scoreStr totalScore),
          Event.navigate "/quiz/results"])
    else (s, [])
  | .back =>
    if s.step = Step.growthStage then ({ s with step := Step.businessType }, [])
    else if s.step = Step.questions then
      if 0 < s.currentQuestionIndex then
        ({ s with currentQuestionIndex := s.currentQuestionIndex - 1 }, [])
      else ({ s with step := Step.growthStage }, [])
    else (s, [])

/-- The state a freshly mounted Quiz component starts from (page.tsx
lines 94-98), over arbitrary pre-existing store contents. -/
def initState (ls ss : Storage) : QuizState :=
  { step := Step.intro,
    selectedBusinessType := none,
    selectedGrowthStage := none,
    currentQuestionIndex := 0,
    answers := [],
    localStorage := ls,
    sessionStorage := ss }

/-- Run a list of user interactions from a state, concatenating the
emitted browser effects in order. -/
def runQuiz (lookup : String → String → List Question) :
    QuizState → List UiAction → QuizState × List Event
  | s, [] => (s, [])
  | s, a :: as =>
    let r := stepQuiz lookup s a
    let r2 := runQuiz lookup r.1 as
    (r2.1, r.2 ++ r2.2)

/-- A state is reachable when some interaction sequence from a fresh
mount (over some pre-existing store contents) produces it. -/
def Reachable (lookup : String → String → List Question) (s : QuizState) : Prop :=
  ∃ ls ss as, (runQuiz lookup (initState ls ss) as).1 = s

/-- A three-question fixture standing in for one authored question set of
the question bank, used to instantiate the parametric lookup in concrete
runs. -/
def demoQuestions : List Question :=
  [ { question := "How do you plan your week?",
      options := [⟨"I do not plan", 1⟩, ⟨"Loose lists", 2⟩, ⟨"A repeatable system", 4⟩] },
    { question := "How consistent is your revenue?",
      options := [⟨"Unpredictable", 1⟩, ⟨"Somewhat steady", 2⟩, ⟨"Very steady", 4⟩] },
    { question := "How often do you delegate?",
      options := [⟨"Never", 1⟩, ⟨"Sometimes", 2⟩, ⟨"Routinely", 4⟩] } ]

/-- A question bank that serves the fixture set for every path. -/
def demoLookup : String → String → List Question := fun _ _ => demoQuestions

/-- True on an event that writes the score key of some store. -/
def isScoreWrite : Event → Bool
  | .setItem _ k _ => k == scoreKey
  | _ => false

/-- True on a navigation hand-off event. -/
def isNavigate : Event → Bool
  | .navigate _ => true
  | _ => false

/-- True when a storage event targets the session-scoped store; a
navigation event touches no store. -/
def touchesSessionStore : Event → Bool
  | .setItem st _ _ => st = StoreTag.sessionStore
  | .removeItem st _ => st = StoreTag.sessionStore
  | .navigate _ => false

/-- How many events of a trace satisfy a predicate. -/
def countEv (p : Event → Bool) (evs : List Event) : Nat :=
  (evs.filter p).length

example :
    (runQuiz demoLookup (initState emptyStorage emptyStorage)
      [UiAction.start, UiAction.chooseBusinessType "freelancer",
       UiAction.chooseGrowthStage "startup", UiAction.answer 2, UiAction.answer 4,
       UiAction.answer 1]).1.localStorage.score = some "7" := by decide

example :
    (runQuiz demoLookup (initState emptyStorage emptyStorage)
      [UiAction.start, UiAction.chooseBusinessType "freelancer",
       UiAction.chooseGrowthStage "startup", UiAction.answer 2, UiAction.answer 4,
       UiAction.answer 1]).1.localStorage.answers = some "[2,4,1]" := by decide

/-- A questions-screen state with two recorded answers and leftover
storage, used as a concrete instantiation point for the frame theorems. -/
def dirtyState : QuizState :=
  { step := Step.questions,
    selectedBusinessType := some "freelancer",
    selectedGrowthStage := some "startup",
    currentQuestionIndex := 1,
    answers := [some 3, some 1],
    localStorage :=
      { path := some (encodePath (some "freelancer") "startup"),
        answers := some "[3,1]",
        score := some "4" },
    sessionStorage := emptyStorage }

lemma setIdx_length (A : List (Option Int)) (i : Nat) (p : Int) :
    (setIdx A i p).length = max A.length (i + 1) := by
  unfold setIdx
  split <;> simp <;> omega

lemma setIdx_at_length (A : List (Option Int)) (p : Int) :
    setIdx A A.length p = A ++ [some p] := by
  unfold setIdx
  simp

lemma setIdx_get_self (A : List (Option Int)) (i : Nat) (p : Int) :
    (setIdx A i p)[i]? = some (some p) := by
  unfold setIdx
  split
  · rw [List.getElem?_set_eq_of_lt _ ‹_›]
  · have hle : A.length ≤ i := Nat.le_of_not_lt ‹_›
    rw [List.getElem?_append_right hle]
    rw [List.getElem?_append_right (by simp)]
    simp

lemma setIdx_get_ne (A : List (Option Int)) (i j : Nat) (p : Int)
    (hj : j ≠ i) (hlt : j < A.length) :
    (setIdx A i p)[j]? = A[j]? := by
  unfold setIdx
  split
  · exact List.getElem?_set_ne (Ne.symm hj)
  · exact List.getElem?_append_left hlt

/-- In both branches of handleAnswer the new answers state is the indexed
write into a copy of the old list (page.tsx lines 264-266). -/
lemma answer_answers_eq (lookup : String → String → List Question)
    (s : QuizState) (p : Int) (h : s.step = Step.questions) :
    (stepQuiz lookup s (UiAction.answer p)).1.answers
      = setIdx s.answers s.currentQuestionIndex p := by
  simp only [stepQuiz, h, reduceIte]
  split <;> rfl

/-- C2: from the growth-stage screen, choosing a growth stage records it,
replaces the persisted store contents by the fresh path record with the
answers and score keys removed, resets the question index to 0 and the
in-memory answer list to empty, and moves to the questions screen,
whatever the prior history held. -/
theorem selectGrowthStage_fresh_start (lookup : String → String → List Question)
    (s : QuizState) (gs : String) (h : s.step = Step.growthStage) :
    stepQuiz lookup s (UiAction.chooseGrowthStage gs) =
      ({ s with
          selectedGrowthStage := some gs,
          localStorage :=
            { path := some (encodePath s.selectedBusinessType gs),
              answers := none,
              score := none },
          currentQuestionIndex := 0,
          answers := [],
          step := Step.questions },
       [Event.removeItem StoreTag.localStore scoreKey,
        Event.removeItem StoreTag.localStore answersKey,
        Event.setItem StoreTag.localStore pathKey
          (encodePath s.selectedBusinessType gs)]) := by
  simp [stepQuiz, h]

/-- C2 witness: the reset fires from a state that already holds answers,
a persisted score and a nonzero index. -/
theorem selectGrowthStage_fresh_start_witness :
    stepQuiz demoLookup { dirtyState with step := Step.growthStage }
        (UiAction.chooseGrowthStage "growing") =
      ({ { dirtyState with step := Step.growthStage } with
          selectedGrowthStage := some "growing",
          localStorage :=
            { path := some (encodePath
                ({ dirtyState with step := Step.growthStage }).selectedBusinessType
                "growing"),
              answers := none,
              score := none },
          currentQuestionIndex := 0,
          answers := [],
          step := Step.questions },
       [Event.removeItem StoreTag.localStore scoreKey,
        Event.removeItem StoreTag.localStore answersKey,
        Event.setItem StoreTag.localStore pathKey
          (encodePath
            ({ dirtyState with step := Step.growthStage }).selectedBusinessType
            "growing")]) :=
  selectGrowthStage_fresh_start demoLookup
    { dirtyState with step := Step.growthStage } "growing" rfl

/-- C10: from the business-type screen, choosing a business type changes
only the recorded business type and the current screen; the growth stage,
the answer list, the question index, both stores and the event trace are
untouched (the handler performs no storage write), so earlier answers
survive until the growth-stage selection performs its reset. -/
theorem selectBusinessType_frame (lookup : String → String → List Question)
    (s : QuizState) (bt : String) (h : s.step = Step.businessType) :
    stepQuiz lookup s (UiAction.chooseBusinessType bt) =
      ({ s with selectedBusinessType := some bt, step := Step.growthStage }, []) := by
  simp [stepQuiz, h]

/-- C10 witness: choosing a new business type over a state with leftover
answers and persisted records leaves all of them in place. -/
theorem selectBusinessType_frame_witness :
    stepQuiz demoLookup { dirtyState with step := Step.businessType }
        (UiAction.chooseBusinessType "coach") =
      ({ { dirtyState with step := Step.businessType } with
          selectedBusinessType := some "coach",
          step := Step.growthStage }, []) :=
  selectBusinessType_frame demoLookup
    { dirtyState with step := Step.businessType } "coach" rfl

/-- C4: on the questions screen the back button decrements the index by
exactly one when it is positive and otherwise switches the screen back to
growth-stage selection; in both cases every other field, both selections,
the answer list and both stores are left as they were and no effect is
emitted. -/
theorem goBack_transition (lookup : String → String → List Question)
    (s : QuizState) (h : s.step = Step.questions) :
    stepQuiz lookup s UiAction.back =
      (if 0 < s.currentQuestionIndex
        then { s with currentQuestionIndex := s.currentQuestionIndex - 1 }
        else { s with step := Step.growthStage },
       []) := by
  by_cases h0 : 0 < s.currentQuestionIndex <;> simp [stepQuiz, h, h0]

/-- C4 witness: back from index 1 lands on index 0 with answers intact,
and back again from index 0 returns to the growth-stage screen with the
selections and answers still in place. -/
theorem goBack_transition_witness :
    (stepQuiz demoLookup dirtyState UiAction.back =
      (if 0 < dirtyState.currentQuestionIndex
        then { dirtyState with
                currentQuestionIndex := dirtyState.currentQuestionIndex - 1 }
        else { dirtyState with step := Step.growthStage },
       []))
    ∧ (stepQuiz demoLookup { dirtyState with currentQuestionIndex := 0 }
          UiAction.back =
        (if 0 < ({ dirtyState with
                    currentQuestionIndex := 0 } : QuizState).currentQuestionIndex
          then { { dirtyState with currentQuestionIndex := 0 } with
                  currentQuestionIndex :=
                    ({ dirtyState with
                        currentQuestionIndex := 0 } : QuizState).currentQuestionIndex
                      - 1 }
          else { { dirtyState with currentQuestionIndex := 0 } with
                  step := Step.growthStage },
         [])) :=
  ⟨goBack_transition demoLookup dirtyState rfl,
   goBack_transition demoLookup { dirtyState with currentQuestionIndex := 0 } rfl⟩

/-- C3: answering on the questions screen writes the point value into the
current slot of the recorded-points list and every other slot that was
previously recorded keeps its old value, so re-answering after going back
overwrites only the revisited slot. -/
theorem handleAnswer_overwrites_only_current_slot
    (lookup : String → String → List Question) (s : QuizState) (p : Int)
    (h : s.step = Step.questions) :
    ((stepQuiz lookup s (UiAction.answer p)).1.answers[s.currentQuestionIndex]?
        = some (some p))
    ∧ ∀ j, j ≠ s.currentQuestionIndex → j < s.answers.length →
        (stepQuiz lookup s (UiAction.answer p)).1.answers[j]? = s.answers[j]? := by
  rw [answer_answers_eq lookup s p h]
  exact ⟨setIdx_get_self _ _ _, fun j hj hlt => setIdx_get_ne _ _ _ _ hj hlt⟩

/-- C3 witness: re-answering slot 0 of the two-slot list [3, 1] with 4
yields slot 0 holding 4 while slot 1 still holds 1. -/
theorem handleAnswer_overwrites_only_current_slot_witness :
    ((stepQuiz demoLookup { dirtyState with currentQuestionIndex := 0 }
        (UiAction.answer 4)).1.answers[0]? = some (some 4))
    ∧ (1 ≠ (0 : Nat) → 1 < ([some 3, some 1] : List (Option Int)).length →
        (stepQuiz demoLookup { dirtyState with currentQuestionIndex := 0 }
          (UiAction.answer 4)).1.answers[1]? = some (some 1)) :=
  ⟨(handleAnswer_overwrites_only_current_slot demoLookup
      { dirtyState with currentQuestionIndex := 0 } 4 rfl).1,
   fun hj hlt =>
    (handleAnswer_overwrites_only_current_slot demoLookup
      { dirtyState with currentQuestionIndex := 0 } 4 rfl).2 1 hj hlt⟩

/-- C6 counterexample: the derived progress value at question index 2 of
5 total is 60 (a percentage), not the fraction 3/5 = 0.6 the claim
states, because page.tsx line 261 multiplies the ratio by 100. -/
theorem progress_at_2_of_5_is_60_not_point_6 :
    progressPct 2 5 = 60 ∧ progressPct 2 5 ≠ 3 / 5 := by
  constructor <;> norm_num [progressPct]

/-- C6 amended: the derived progress value at zero-based index i of N
total equals exactly 100 * (i + 1) / N, a percentage recomputed from the
index and the question count on each render (progressPct has no backing
state field), so index 2 of 5 yields 60. -/
theorem progress_pct_formula :
    (∀ i N : Nat, progressPct i N = 100 * (((i : ℚ) + 1) / (N : ℚ)))
    ∧ progressPct 2 5 = 60 := by
  constructor
  · intro i N
    unfold progressPct
    ring
  · norm_num [progressPct]

/-- C9 counterexample: after a complete run the session-scoped store is
still empty while the score lives in the persistent local store — the
write at page.tsx line 277 is a localStorage write, so quiz data outlives
the browser session. -/
theorem persistence_targets_local_store_cex :
    ((runQuiz demoLookup (initState emptyStorage emptyStorage)
        [UiAction.start, UiAction.chooseBusinessType "freelancer",
         UiAction.chooseGrowthStage "startup", UiAction.answer 2,
         UiAction.answer 4, UiAction.answer 1]).1.sessionStorage = emptyStorage)
    ∧ ((runQuiz demoLookup (initState emptyStorage emptyStorage)
        [UiAction.start, UiAction.chooseBusinessType "freelancer",
         UiAction.chooseGrowthStage "startup", UiAction.answer 2,
         UiAction.answer 4, UiAction.answer 1]).1.localStorage.score = some "7")
    ∧ Event.setItem StoreTag.localStore scoreKey "7"
        ∈ (runQuiz demoLookup (initState emptyStorage emptyStorage)
            [UiAction.start, UiAction.chooseBusinessType "freelancer",
             UiAction.chooseGrowthStage "startup", UiAction.answer 2,
             UiAction.answer 4, UiAction.answer 1]).2 := by decide

/-- C9 amended: every persistence operation the controller performs
(path, answers, score, and the removals) targets the persistent
localStorage store; no transition ever touches the session-scoped store,
so the persisted quiz data is not limited to the current browser
session. -/
theorem all_writes_target_local_store (lookup : String → String → List Question)
    (s : QuizState) (a : UiAction) :
    (stepQuiz lookup s a).1.sessionStorage = s.sessionStorage
    ∧ countEv touchesSessionStore (stepQuiz lookup s a).2 = 0 := by
  cases a <;> simp only [stepQuiz] <;> (repeat' split) <;>
    simp [countEv, touchesSessionStore]

/-- A finished wizard absorbs every further interaction without effects:
after router.push the component is gone. -/
lemma stepQuiz_done (lookup : String → String → List Question) (s : QuizState)
    (a : UiAction) (h : s.step = Step.done) : stepQuiz lookup s a = (s, []) := by
  cases a <;> simp [stepQuiz, h]

lemma countEv_append (p : Event → Bool) (l₁ l₂ : List Event) :
    countEv p (l₁ ++ l₂) = countEv p l₁ + countEv p l₂ := by
  simp [countEv, List.filter_append]

/-- One transition raises the score-write count exactly when it moves the
wizard into the done state, and then by exactly one. -/
lemma step_indicator_score (lookup : String → String → List Question)
    (s : QuizState) (a : UiAction) :
    (if (stepQuiz lookup s a).1.step = Step.done then 1 else 0)
      = (if s.step = Step.done then 1 else 0)
        + countEv isScoreWrite (stepQuiz lookup s a).2 := by
  cases a <;> simp only [stepQuiz] <;> (repeat' split) <;>
    simp_all [countEv, isScoreWrite, scoreKey, answersKey, pathKey]

/-- One transition emits a navigation hand-off exactly when it moves the
wizard into the done state, and then exactly one. -/
lemma step_indicator_nav (lookup : String → String → List Question)
    (s : QuizState) (a : UiAction) :
    (if (stepQuiz lookup s a).1.step = Step.done then 1 else 0)
      = (if s.step = Step.done then 1 else 0)
        + countEv isNavigate (stepQuiz lookup s a).2 := by
  cases a <;> simp only [stepQuiz] <;> (repeat' split) <;>
    simp_all [countEv, isNavigate]

/-- Over a whole run the score-write and navigation counts each equal the
done-state indicator difference between the final and initial state. -/
lemma run_indicator (lookup : String → String → List Question)
    (as : List UiAction) (s : QuizState) :
    ((if (runQuiz lookup s as).1.step = Step.done then 1 else 0)
        = (if s.step = Step.done then 1 else 0)
          + countEv isScoreWrite (runQuiz lookup s as).2)
    ∧ ((if (runQuiz lookup s as).1.step = Step.done then 1 else 0)
        = (if s.step = Step.done then 1 else 0)
          + countEv isNavigate (runQuiz lookup s as).2) := by
  induction as generalizing s with
  | nil => simp [runQuiz, countEv]
  | cons a as ih =>
    have hs := step_indicator_score lookup s a
    have hn := step_indicator_nav lookup s a
    have hrs := (ih (stepQuiz lookup s a).1).1
    have hrn := (ih (stepQuiz lookup s a).1).2
    have h1 : (runQuiz lookup s (a :: as)).1
        = (runQuiz lookup (stepQuiz lookup s a).1 as).1 := rfl
    have h2 : (runQuiz lookup s (a :: as)).2
        = (stepQuiz lookup s a).2 ++ (runQuiz lookup (stepQuiz lookup s a).1 as).2 := rfl
    rw [h1, h2, countEv_append, countEv_append]
    omega

/-- C5: over every interaction sequence from a fresh mount, the number of
score-key writes in the emitted effect trace and the number of
navigation hand-offs each equal 1 when the run reached the done state
and 0 otherwise; moreover every single transition either lands in the
done state or emits neither a score write nor a hand-off.  Applied to a
prefix of a run this gives: no score write and no hand-off ever happens
before the answer to the last question, and none can follow it, since a
done wizard absorbs all further interactions silently. -/
theorem score_and_handoff_exactly_once_at_completion
    (lookup : String → String → List Question) (ls ss : Storage)
    (as : List UiAction) :
    (countEv isScoreWrite (runQuiz lookup (initState ls ss) as).2
        = (if (runQuiz lookup (initState ls ss) as).1.step = Step.done then 1 else 0))
    ∧ (countEv isNavigate (runQuiz lookup (initState ls ss) as).2
        = (if (runQuiz lookup (initState ls ss) as).1.step = Step.done then 1 else 0))
    ∧ ∀ (t : QuizState) (a : UiAction),
        (stepQuiz lookup t a).1.step = Step.done
        ∨ (countEv isScoreWrite (stepQuiz lookup t a).2 = 0
            ∧ countEv isNavigate (stepQuiz lookup t a).2 = 0) := by
  have h := run_indicator lookup as (initState ls ss)
  have h0 : (if (initState ls ss).step = Step.done then 1 else 0) = 0 := by
    simp [initState]
  refine ⟨by omega, by omega, ?_⟩
  intro t a
  by_cases hd : (stepQuiz lookup t a).1.step = Step.done
  · exact Or.inl hd
  · right
    have hs := step_indicator_score lookup t a
    have hn := step_indicator_nav lookup t a
    simp only [hd, if_false] at hs hn
    constructor <;> omega

/-- Folding jsAdd over a hole-free list is ordinary integer summation. -/
lemma jsSum_map_some (ps : List Int) : jsSum (ps.map some) = some ps.sum := by
  have key : ∀ (qs : List Int) (a : Int),
      List.foldl jsAdd (some a) (qs.map some) = some (a + qs.sum) := by
    intro qs
    induction qs with
    | nil => intro a; simp
    | cons p qs ih =>
      intro a
      have h1 : List.foldl jsAdd (some a) ((p :: qs).map some)
          = List.foldl jsAdd (some (a + p)) (qs.map some) := rfl
      rw [h1, ih]
      simp [add_assoc]
  simpa [jsSum] using key ps 0

/-- Running the whole remaining answer sequence from a questions-screen
state whose index sits at the end of the recorded list finishes the quiz
and persists the full answer list and its total. -/
lemma run_answers_phase (lookup : String → String → List Question) (ps : List Int) :
    ∀ s : QuizState, ps ≠ [] → s.step = Step.questions →
    s.currentQuestionIndex = s.answers.length →
    (questionsOf lookup s).length = s.answers.length + ps.length →
    ((runQuiz lookup s (ps.map UiAction.answer)).1.step = Step.done
     ∧ (runQuiz lookup s (ps.map UiAction.answer)).1.localStorage.answers
         = some (encodeAnswers (s.answers ++ ps.map some))
     ∧ (runQuiz lookup s (ps.map UiAction.answer)).1.localStorage.score
         = some (scoreStr (jsSum (s.answers ++ ps.map some)))) := by
  induction ps with
  | nil => intro s hne; exact absurd rfl hne
  | cons p ps ih =>
    intro s _ hstep hidx hlen
    simp only [List.length_cons] at hlen
    by_cases hrest : ps = []
    · subst hrest
      have hguard : ¬ (s.currentQuestionIndex
          < (questionsOf lookup s).length - 1) := by
        simp at hlen
        omega
      have hres : (stepQuiz lookup s (UiAction.answer p)).1
          = { s with
              answers := s.answers ++ [some p],
              localStorage :=
                { s.localStorage with
                    answers := some (encodeAnswers (s.answers ++ [some p])),
                    score := some (scoreStr (jsSum (s.answers ++ [some p]))) },
              step := Step.done } := by
        simp only [stepQuiz]
        rw [if_pos hstep, if_neg hguard, hidx, setIdx_at_length]
      have hrun : (runQuiz lookup s ([p].map UiAction.answer)).1
          = (stepQuiz lookup s (UiAction.answer p)).1 := rfl
      rw [hrun, hres]
      exact ⟨rfl, rfl, rfl⟩
    · have hpos : 0 < ps.length := List.length_pos.mpr hrest
      have hguard : s.currentQuestionIndex
          < (questionsOf lookup s).length - 1 := by omega
      have hres : (stepQuiz lookup s (UiAction.answer p)).1
          = { s with
              answers := s.answers ++ [some p],
              localStorage :=
                { s.localStorage with
                    answers := some (encodeAnswers (s.answers ++ [some p])) },
              currentQuestionIndex := s.currentQuestionIndex + 1 } := by
        simp only [stepQuiz]
        rw [if_pos hstep, if_pos hguard, hidx, setIdx_at_length]
      have hrun : (runQuiz lookup s ((p :: ps).map UiAction.answer)).1
          = (runQuiz lookup (stepQuiz lookup s (UiAction.answer p)).1
              (ps.map UiAction.answer)).1 := rfl
      have h2 := ih { s with
              answers := s.answers ++ [some p],
              localStorage :=
                { s.localStorage with
                    answers := some (encodeAnswers (s.answers ++ [some p])) },
              currentQuestionIndex := s.currentQuestionIndex + 1 }
        hrest hstep (by simp [hidx])
        (by
          show (questionsOf lookup s).length
              = (s.answers ++ [some p]).length + ps.length
          simp
          omega)
      rw [hrun, hres]
      have hcat : (s.answers ++ [some p]) ++ ps.map some
          = s.answers ++ (p :: ps).map some := by simp
      rw [hcat] at h2
      exact h2

/-- C1: selecting a path and then answering every question of that path
in order with point values ps persists, at completion, the total score as
the decimal string of the integer sum of ps under the score key, and the
full answer record, index-aligned with ps, under the answers key. -/
theorem complete_run_persists_total_and_answers
    (lookup : String → String → List Question) (ls ss : Storage)
    (bt gs : String) (ps : List Int) (hne : ps ≠ [])
    (hN : (lookup bt gs).length = ps.length) :
    ((runQuiz lookup (initState ls ss)
        ([UiAction.start, UiAction.chooseBusinessType bt,
          UiAction.chooseGrowthStage gs]
          ++ ps.map UiAction.answer)).1.localStorage.score
        = some (toString ps.sum))
    ∧ ((runQuiz lookup (initState ls ss)
        ([UiAction.start, UiAction.chooseBusinessType bt,
          UiAction.chooseGrowthStage gs]
          ++ ps.map UiAction.answer)).1.localStorage.answers
        = some (encodeAnswers (ps.map some))) := by
  have hsetup : (runQuiz lookup (initState ls ss)
      ([UiAction.start, UiAction.chooseBusinessType bt,
        UiAction.chooseGrowthStage gs] ++ ps.map UiAction.answer)).1
      = (runQuiz lookup
          { step := Step.questions,
            selectedBusinessType := some bt,
            selectedGrowthStage := some gs,
            currentQuestionIndex := 0,
            answers := [],
            localStorage :=
              { path := some (encodePath (some bt) gs),
                answers := none, score := none },
            sessionStorage := ss }
          (ps.map UiAction.answer)).1 := rfl
  have h := run_answers_phase lookup ps
    { step := Step.questions,
      selectedBusinessType := some bt,
      selectedGrowthStage := some gs,
      currentQuestionIndex := 0,
      answers := [],
      localStorage :=
        { path := some (encodePath (some bt) gs),
          answers := none, score := none },
      sessionStorage := ss }
    hne rfl rfl (by simpa [questionsOf] using hN)
  rw [hsetup]
  refine ⟨?_, ?_⟩
  · rw [h.2.2]
    simp [jsSum_map_some, scoreStr]
  · rw [h.2.1]
    simp

/-- C1 witness: for the three-question path with points [2, 4, 1] the
persisted score is the string 7 and the persisted answer record is the
JSON array [2,4,1]. -/
theorem complete_run_persists_total_and_answers_witness :
    ((runQuiz demoLookup (initState emptyStorage emptyStorage)
        ([UiAction.start, UiAction.chooseBusinessType "freelancer",
          UiAction.chooseGrowthStage "startup"]
          ++ ([2, 4, 1] : List Int).map UiAction.answer)).1.localStorage.score
        = some "7")
    ∧ ((runQuiz demoLookup (initState emptyStorage emptyStorage)
        ([UiAction.start, UiAction.chooseBusinessType "freelancer",
          UiAction.chooseGrowthStage "startup"]
          ++ ([2, 4, 1] : List Int).map UiAction.answer)).1.localStorage.answers
        = some "[2,4,1]") :=
  complete_run_persists_total_and_answers demoLookup emptyStorage emptyStorage
    "freelancer" "startup" [2, 4, 1] (by decide) (by decide)

/-- The questions-screen safety invariant: the current index addresses an
existing question and the recorded list is no longer than the question
sequence of the selected path. -/
def InBounds (lookup : String → String → List Question) (s : QuizState) : Prop :=
  s.step = Step.questions →
    s.currentQuestionIndex < (questionsOf lookup s).length
    ∧ s.answers.length ≤ (questionsOf lookup s).length

/-- Every transition preserves the questions-screen safety invariant,
provided the question bank serves a non-empty sequence for every path. -/
lemma stepQuiz_preserves_inBounds (lookup : String → String → List Question)
    (hq : ∀ b g, lookup b g ≠ []) (s : QuizState) (a : UiAction)
    (hs : InBounds lookup s) : InBounds lookup (stepQuiz lookup s a).1 := by
  cases a with
  | start =>
    by_cases h1 : s.step = Step.intro
    · simp only [stepQuiz, if_pos h1]
      intro h
      exact absurd h (by simp)
    · simpa only [stepQuiz, if_neg h1] using hs
  | chooseBusinessType bt =>
    by_cases h1 : s.step = Step.businessType
    · simp only [stepQuiz, if_pos h1]
      intro h
      exact absurd h (by simp)
    · simpa only [stepQuiz, if_neg h1] using hs
  | chooseGrowthStage gs =>
    by_cases h1 : s.step = Step.growthStage
    · simp only [stepQuiz, if_pos h1]
      intro _
      exact ⟨List.length_pos.mpr (hq _ _), Nat.zero_le _⟩
    · simpa only [stepQuiz, if_neg h1] using hs
  | answer p =>
    by_cases h1 : s.step = Step.questions
    · simp only [stepQuiz, if_pos h1]
      by_cases h2 : s.currentQuestionIndex < (questionsOf lookup s).length - 1
      · simp only [if_pos h2]
        intro _
        obtain ⟨hi, hl⟩ := hs h1
        refine ⟨?_, ?_⟩
        · show s.currentQuestionIndex + 1 < (questionsOf lookup s).length
          omega
        · show (setIdx s.answers s.currentQuestionIndex p).length
              ≤ (questionsOf lookup s).length
          rw [setIdx_length]
          omega
      · simp only [if_neg h2]
        intro h
        exact absurd h (by simp)
    · simpa only [stepQuiz, if_neg h1] using hs
  | back =>
    by_cases h1 : s.step = Step.growthStage
    · simp only [stepQuiz, if_pos h1]
      intro h
      exact absurd h (by simp)
    · simp only [stepQuiz, if_neg h1]
      by_cases h2 : s.step = Step.questions
      · simp only [if_pos h2]
        by_cases h3 : 0 < s.currentQuestionIndex
        · simp only [if_pos h3]
          intro _
          obtain ⟨hi, hl⟩ := hs h2
          refine ⟨?_, ?_⟩
          · show s.currentQuestionIndex - 1 < (questionsOf lookup s).length
            omega
          · exact hl
        · simp only [if_neg h3]
          intro h
          exact absurd h (by simp)
      · simpa only [if_neg h2] using hs
  
/-- A whole run preserves the questions-screen safety invariant. -/
lemma runQuiz_preserves_inBounds (lookup : String → String → List Question)
    (hq : ∀ b g, lookup b g ≠ []) (as : List UiAction) (s : QuizState)
    (hs : InBounds lookup s) : InBounds lookup (runQuiz lookup s as).1 := by
  induction as generalizing s with
  | nil => exact hs
  | cons a as ih => exact ih _ (stepQuiz_preserves_inBounds lookup hq s a hs)

/-- Every reachable state satisfies the questions-screen safety invariant
when the question bank serves a non-empty sequence for every path. -/
lemma reachable_inBounds (lookup : String → String → List Question)
    (hq : ∀ b g, lookup b g ≠ []) (s : QuizState) (hr : Reachable lookup s) :
    InBounds lookup s := by
  obtain ⟨ls, ss, as, rfl⟩ := hr
  refine runQuiz_preserves_inBounds lookup hq as (initState ls ss) ?_
  intro h
  exact absurd h (by simp [initState])

/-- A reachable questions-screen state: path chosen and the first
question answered, so the current index is 1. -/
def reachedState : QuizState :=
  (runQuiz demoLookup (initState emptyStorage emptyStorage)
    [UiAction.start, UiAction.chooseBusinessType "freelancer",
     UiAction.chooseGrowthStage "startup", UiAction.answer 2]).1

/-- C7: when the question bank serves a non-empty sequence for every
path, every reachable questions-screen state keeps its current index
strictly below the question count, so the current-question read at
page.tsx line 260 is always in range; and whenever the sequence for the
selected path is empty, that same read is out of range (the latent crash:
questions[currentQuestionIndex] is undefined). -/
theorem answering_index_always_in_bounds
    (lookup : String → String → List Question)
    (hq : ∀ b g, lookup b g ≠ []) (s : QuizState)
    (hr : Reachable lookup s) (h : s.step = Step.questions) :
    (s.currentQuestionIndex < (questionsOf lookup s).length
      ∧ ((questionsOf lookup s)[s.currentQuestionIndex]?).isSome = true)
    ∧ ∀ (lookup2 : String → String → List Question) (t : QuizState),
        questionsOf lookup2 t = [] →
        (questionsOf lookup2 t)[t.currentQuestionIndex]? = none := by
  obtain ⟨hi, -⟩ := reachable_inBounds lookup hq s hr h
  refine ⟨⟨hi, ?_⟩, ?_⟩
  · rw [List.getElem?_eq_getElem hi]
    rfl
  · intro lookup2 t ht
    rw [ht]
    simp

/-- C7 witness: in the concrete reachable state with index 1 of the
three-question fixture path, the current-question read is in range. -/
theorem answering_index_always_in_bounds_witness :
    reachedState.currentQuestionIndex < (questionsOf demoLookup reachedState).length
    ∧ ((questionsOf demoLookup reachedState)[reachedState.currentQuestionIndex]?).isSome
        = true :=
  (answering_index_always_in_bounds demoLookup (fun _ _ => List.cons_ne_nil _ _)
    reachedState
    ⟨emptyStorage, emptyStorage,
     [UiAction.start, UiAction.chooseBusinessType "freelancer",
      UiAction.chooseGrowthStage "startup", UiAction.answer 2], rfl⟩
    rfl).1

/-- C8 counterexample: answer two questions of the three-question path,
then press back twice; the state is still on the questions screen with
current index 0 but a recorded-points list of length 2, violating the
claimed bound length less-or-equal index plus one. -/
theorem answers_length_exceeds_index_plus_one :
    ((runQuiz demoLookup (initState emptyStorage emptyStorage)
        [UiAction.start, UiAction.chooseBusinessType "freelancer",
         UiAction.chooseGrowthStage "startup", UiAction.answer 2,
         UiAction.answer 4, UiAction.back, UiAction.back]).1.step = Step.questions)
    ∧ ((runQuiz demoLookup (initState emptyStorage emptyStorage)
        [UiAction.start, UiAction.chooseBusinessType "freelancer",
         UiAction.chooseGrowthStage "startup", UiAction.answer 2,
         UiAction.answer 4, UiAction.back, UiAction.back]).1.currentQuestionIndex = 0)
    ∧ ¬ ((runQuiz demoLookup (initState emptyStorage emptyStorage)
        [UiAction.start, UiAction.chooseBusinessType "freelancer",
         UiAction.chooseGrowthStage "startup", UiAction.answer 2,
         UiAction.answer 4, UiAction.back, UiAction.back]).1.answers.length
      ≤ (runQuiz demoLookup (initState emptyStorage emptyStorage)
        [UiAction.start, UiAction.chooseBusinessType "freelancer",
         UiAction.chooseGrowthStage "startup", UiAction.answer 2,
         UiAction.answer 4, UiAction.back, UiAction.back]).1.currentQuestionIndex
        + 1) := by decide

/-- C8 amended: in every reachable questions-screen state the length of
the recorded-points list never exceeds the number of questions of the
selected path (given that the question bank serves a non-empty sequence
for every path); this bound is preserved by every transition.  The
original index-plus-one bound fails once the user navigates back past
answered questions. -/
theorem answers_length_at_most_question_count
    (lookup : String → String → List Question)
    (hq : ∀ b g, lookup b g ≠ []) (s : QuizState)
    (hr : Reachable lookup s) (h : s.step = Step.questions) :
    s.answers.length ≤ (questionsOf lookup s).length :=
  (reachable_inBounds lookup hq s hr h).2

/-- C8 amended witness: the concrete reachable state holds one recorded
answer against the three-question fixture path. -/
theorem answers_length_at_most_question_count_witness :
    reachedState.answers.length ≤ (questionsOf demoLookup reachedState).length :=
  answers_length_at_most_question_count demoLookup (fun _ _ => List.cons_ne_nil _ _)
    reachedState
    ⟨emptyStorage, emptyStorage,
     [UiAction.start, UiAction.chooseBusinessType "freelancer",
      UiAction.chooseGrowthStage "startup", UiAction.answer 2], rfl⟩
    rfl
